import Mathlib

/-!
Verification development for the Stealth Lock GNOME Shell extension
(`extension.js`): a shallow embedding of the lock-session engine, the key
decoder, the credential-verification protocol, the media pause/resume
coordinator, the XBM cursor renderer and the screenshot overlay, together
with theorems settling the spec claims about them.

JavaScript strings are modeled as lists of UTF-16 code units
(`List Nat`), because the engine stores the password buffer in a plain JS
string and manipulates it with `+=`, `.slice(0, -1)` and `.length`, all of
which operate on UTF-16 code units.
-/

namespace StealthLock

/-- JS `String.fromCodePoint` for a single code point: one UTF-16 code
unit below 0x10000, a surrogate pair otherwise. -/
def jsFromCodePoint (c : Nat) : List Nat :=
  if c < 0x10000 then [c]
  else [0xD800 + (c - 0x10000) / 0x400, 0xDC00 + (c - 0x10000) % 0x400]

/-- `PASSWORD_BULLET = '•'` from the source. -/
def PASSWORD_BULLET : Nat := 0x2022

/-! Clutter keysym constants used by `_onKeyPress` (standard X11 keysym
values, as exposed by Clutter). -/

def KEY_Return : Nat := 0xff0d
def KEY_KP_Enter : Nat := 0xff8d
def KEY_BackSpace : Nat := 0xff08
def KEY_Escape : Nat := 0xff1b
def KEY_KP_0 : Nat := 0xffb0
def KEY_KP_9 : Nat := 0xffb9
def KEY_KP_Decimal : Nat := 0xffae
def KEY_KP_Separator : Nat := 0xffac
def KEY_KP_Add : Nat := 0xffab
def KEY_KP_Subtract : Nat := 0xffad
def KEY_KP_Multiply : Nat := 0xffaa
def KEY_KP_Divide : Nat := 0xffaf
def KEY_Shift_L : Nat := 0xffe1
def KEY_Shift_R : Nat := 0xffe2
def KEY_Control_L : Nat := 0xffe3
def KEY_Control_R : Nat := 0xffe4
def KEY_Alt_L : Nat := 0xffe9
def KEY_Alt_R : Nat := 0xffea
def KEY_Super_L : Nat := 0xffeb
def KEY_Super_R : Nat := 0xffec
def KEY_Caps_Lock : Nat := 0xffe5
def KEY_Num_Lock : Nat := 0xff7f
def KEY_l : Nat := 0x6c
def KEY_L : Nat := 0x4c
def KEY_r : Nat := 0x72
def KEY_R : Nat := 0x52

/-- The character-resolution logic of `_onKeyPress`: `keychar0` is the
result of the platform Unicode chain (`event.get_key_unicode()` falling
back to `Clutter.keysym_to_unicode(keyval)`); when that yields nothing or
a control character, the manual fallback table keyed on `keyval` applies,
and a still-unresolved or control result is discarded as 0. -/
def decodeKeychar (keyval keychar0 : Nat) : Nat :=
  if keychar0 = 0 ∨ keychar0 < 0x20 then
    if 0x20 ≤ keyval ∧ keyval ≤ 0x7e then keyval
    else if 0xa0 ≤ keyval ∧ keyval ≤ 0xff then keyval
    else if 0x01000000 ≤ keyval then keyval - 0x01000000
    else if KEY_KP_0 ≤ keyval ∧ keyval ≤ KEY_KP_9 then 0x30 + (keyval - KEY_KP_0)
    else if keyval = KEY_KP_Decimal ∨ keyval = KEY_KP_Separator then 0x2e
    else if keyval = KEY_KP_Add then 0x2b
    else if keyval = KEY_KP_Subtract then 0x2d
    else if keyval = KEY_KP_Multiply then 0x2a
    else if keyval = KEY_KP_Divide then 0x2f
    else 0
  else keychar0

/-- The fallback table exactly as the spec sentence words it (claim C5);
compared against `decodeKeychar`, which is translated from the source. -/
def specFallbackChar (keyval : Nat) : Nat :=
  if 0x20 ≤ keyval ∧ keyval ≤ 0x7e then keyval
  else if 0xa0 ≤ keyval ∧ keyval ≤ 0xff then keyval
  else if 0x01000000 ≤ keyval then keyval - 0x01000000
  else if KEY_KP_0 ≤ keyval ∧ keyval ≤ KEY_KP_9 then 0x30 + (keyval - KEY_KP_0)
  else if keyval = KEY_KP_Decimal ∨ keyval = KEY_KP_Separator then 0x2e
  else if keyval = KEY_KP_Add then 0x2b
  else if keyval = KEY_KP_Subtract then 0x2d
  else if keyval = KEY_KP_Multiply then 0x2a
  else if keyval = KEY_KP_Divide then 0x2f
  else 0

/-- The fields of `StealthLockExtension` that the lock-session claims
concern. `pendingCandidates` models the in-flight verification requests:
`_attemptUnlock` snapshots the buffer and `await`s `_verifyPassword`, so
between the Enter keypress and the promise resolution the request is
pending. `verifyCalls` counts `_verifyPassword` invocations. `debugMode`
mirrors the `debug-mode` setting read by `_isDebugMode()`; `hasRevealIcon`
mirrors whether `_passwordPromptRevealIcon` is non-null (normal prompt).
The inactivity timer (`_passwordResetTimeoutId`) only schedules a later
buffer clear and is not referenced by the claims, so it is not tracked. -/
structure EngineState where
  locked : Bool
  passwordBuffer : List Nat
  debugAbortSequenceCount : Nat
  debugAbortSequenceLastTime : Nat
  pendingCandidates : List (List Nat)
  verifyCalls : Nat
  passwordPromptRevealed : Bool
  hasRevealIcon : Bool
  debugMode : Bool
deriving DecidableEq, Repr

/-- `_unlock(force)`: early-out when not locked and not forced; otherwise
teardown ends with the buffer cleared and `_locked = false`. -/
def _unlock (s : EngineState) (force : Bool) : EngineState :=
  if s.locked = false ∧ force = false then s
  else { s with passwordBuffer := [], locked := false }

/-- Synchronous prefix of `_attemptUnlock`: early return on an empty
buffer, otherwise snapshot the buffer, clear it and start
`_verifyPassword` (one more pending request). -/
def _attemptUnlock (s : EngineState) : EngineState :=
  if s.passwordBuffer = [] then s
  else { s with
          passwordBuffer := [],
          pendingCandidates := s.pendingCandidates ++ [s.passwordBuffer],
          verifyCalls := s.verifyCalls + 1 }

/-- Continuation of `_attemptUnlock` after `await this._verifyPassword(...)`
resolves: on success `_unlock()`, on failure only the inactivity timer is
re-armed (the buffer is not touched). Requests are retired in FIFO order
in this model; no claim depends on the retirement order. -/
def _attemptUnlockResolve (s : EngineState) (success : Bool) : EngineState :=
  let s1 := { s with pendingCandidates := s.pendingCandidates.tail }
  if success then _unlock s1 false else s1

/-- `_handleDebugAbortSequence()`: rolling 1.2 s window of consecutive
Escape presses, only honored in debug mode while locked; the fifth press
forces `_unlock(true)`. `now` is the `Date.now()` timestamp of the press. -/
def _handleDebugAbortSequence (s : EngineState) (now : Nat) : EngineState :=
  if s.debugMode = false ∨ s.locked = false then s
  else
    let count0 := if s.debugAbortSequenceLastTime + 1200 < now then 0
                  else s.debugAbortSequenceCount
    let s1 := { s with
                 debugAbortSequenceLastTime := now,
                 debugAbortSequenceCount := count0 + 1 }
    if 5 ≤ count0 + 1 then _unlock s1 true else s1

/-- The pure-modifier keyvals consumed and ignored by `_onKeyPress`. -/
def isModifierKeyval (keyval : Nat) : Prop :=
  keyval = KEY_Shift_L ∨ keyval = KEY_Shift_R ∨
  keyval = KEY_Control_L ∨ keyval = KEY_Control_R ∨
  keyval = KEY_Alt_L ∨ keyval = KEY_Alt_R ∨
  keyval = KEY_Super_L ∨ keyval = KEY_Super_R ∨
  keyval = KEY_Caps_Lock ∨ keyval = KEY_Num_Lock

instance (keyval : Nat) : Decidable (isModifierKeyval keyval) := by
  unfold isModifierKeyval; infer_instance

/-- `_onKeyPress(actor, event)`. `ctrl`, `alt`, `shift` are the modifier
bits of `event.get_state()`; `time` is `Date.now()` as observed by
`_handleDebugAbortSequence`. Branch order follows the source: early-out
when unlocked, emergency Ctrl+Alt+Shift+L fallback, Enter, Ctrl+R reveal
toggle, Backspace, Escape, pure modifiers, then appending a decoded
character. Console logging, debug-label updates, prompt refreshes and the
inactivity-timer re-arm do not touch the modeled fields. -/
def _onKeyPress (s : EngineState) (keyval keychar0 : Nat)
    (ctrl alt shift : Bool) (time : Nat) : EngineState :=
  if s.locked = false then s
  else
    let keychar := decodeKeychar keyval keychar0
    if ctrl = true ∧ alt = true ∧ shift = true ∧ (keyval = KEY_l ∨ keyval = KEY_L) then
      -- `_fallbackToSystemLock()` tears this lock down via `_unlock(true)`
      -- and then asks the external ScreenShield to lock.
      _unlock s true
    else if keyval = KEY_Return ∨ keyval = KEY_KP_Enter then
      _attemptUnlock s
    else if ctrl = true ∧ (keyval = KEY_r ∨ keyval = KEY_R) ∧ s.hasRevealIcon = true then
      { s with passwordPromptRevealed := !s.passwordPromptRevealed }
    else if keyval = KEY_BackSpace then
      { s with passwordBuffer := s.passwordBuffer.dropLast }
    else if keyval = KEY_Escape then
      _handleDebugAbortSequence { s with passwordBuffer := [] } time
    else if isModifierKeyval keyval then s
    else if keychar ≠ 0 then
      { s with passwordBuffer := s.passwordBuffer ++ jsFromCodePoint keychar }
    else s

/-- Events of the single-threaded engine loop: raw key presses delivered
to `_onKeyPress`, and resolutions of pending verification promises. -/
inductive Event where
  | key (keyval keychar0 : Nat) (ctrl alt shift : Bool) (time : Nat)
  | verifyResolve (success : Bool)
deriving DecidableEq, Repr

def step (s : EngineState) : Event → EngineState
  | .key keyval keychar0 ctrl alt shift time =>
      _onKeyPress s keyval keychar0 ctrl alt shift time
  | .verifyResolve success => _attemptUnlockResolve s success

/-- The single-threaded event loop: events are dispatched in order. -/
def processEvents (s : EngineState) : List Event → EngineState
  | [] => s
  | e :: rest => processEvents (step s e) rest

/-- A convenient initial state: locked, empty buffer, nothing pending. -/
def lockedState (debugMode : Bool) : EngineState :=
  { locked := true
    passwordBuffer := []
    debugAbortSequenceCount := 0
    debugAbortSequenceLastTime := 0
    pendingCandidates := []
    verifyCalls := 0
    passwordPromptRevealed := false
    hasRevealIcon := false
    debugMode := debugMode }

/-- An Escape key press at time `t`, no modifiers held (the platform
chain reports the ESC control character 0x1b, which the decoder
discards). -/
def escEvent (t : Nat) : Event := Event.key KEY_Escape 0x1b false false false t

/-- A plain Backspace key press, no modifiers held. -/
def backspaceEvent : Event := Event.key KEY_BackSpace 0x08 false false false 0

/-- The decoded character of a key event (0 for non-key events). -/
def eventKeychar : Event → Nat
  | Event.key keyval keychar0 _ _ _ _ => decodeKeychar keyval keychar0
  | Event.verifyResolve _ => 0

/-- Key events that `_onKeyPress` treats as accepted character
keystrokes, i.e. that fall through every dedicated-key branch to the
append branch; `hasRevealIcon` matters only for the Ctrl+R toggle. -/
def acceptsChar (hasRevealIcon : Bool) : Event → Prop
  | Event.key keyval keychar0 ctrl alt shift _ =>
      ¬(ctrl = true ∧ alt = true ∧ shift = true ∧ (keyval = KEY_l ∨ keyval = KEY_L)) ∧
      ¬(keyval = KEY_Return ∨ keyval = KEY_KP_Enter) ∧
      ¬(ctrl = true ∧ (keyval = KEY_r ∨ keyval = KEY_R) ∧ hasRevealIcon = true) ∧
      keyval ≠ KEY_BackSpace ∧ keyval ≠ KEY_Escape ∧
      ¬isModifierKeyval keyval ∧
      decodeKeychar keyval keychar0 ≠ 0
  | Event.verifyResolve _ => False

instance (hasRevealIcon : Bool) (e : Event) : Decidable (acceptsChar hasRevealIcon e) := by
  cases e <;> unfold acceptsChar <;> infer_instance

/-- Any Escape key press, regardless of modifiers or decoded character. -/
def isEscapePress : Event → Prop
  | Event.key keyval _ _ _ _ _ => keyval = KEY_Escape
  | Event.verifyResolve _ => False

instance (e : Event) : Decidable (isEscapePress e) := by
  cases e <;> unfold isEscapePress <;> infer_instance

/-! The credential-verification spawn (`_verifyPassword`). -/

/-- How `_verifyPassword` invokes the helper process: the `argv` passed to
`Gio.Subprocess.new`, the extra environment entries it sets (none — the
subprocess inherits the parent environment unchanged), and the bytes
written to the child's standard input by
`proc.communicate_utf8_async(password + '\n', ...)`. -/
structure VerifySpawn where
  argv : List String
  envExtra : List (String × String)
  stdinUnits : List Nat
deriving DecidableEq, Repr

/-- `_verifyPassword(password)`: spawn `python3 -B <path>/polkit-auth-helper.py`
(plus `--debug` in debug mode) with STDIN_PIPE, then stream the candidate
followed by a newline to its stdin. -/
def _verifyPassword (path : String) (debugMode : Bool) (password : List Nat) : VerifySpawn :=
  { argv := ["python3", "-B", path ++ "/polkit-auth-helper.py"] ++
            (if debugMode then ["--debug"] else [])
    envExtra := []
    stdinUnits := password ++ [0x0a] }

/-! The password prompt display (`_updatePasswordPrompt`). -/

/-- The text `_updatePasswordPrompt` assigns to the prompt label when a
normal prompt exists: `PASSWORD_BULLET.repeat(buffer.length)` unless
reveal mode is toggled on, in which case the literal buffer. JS
`.length`/`.repeat` count UTF-16 code units. -/
def _updatePasswordPrompt (revealed : Bool) (buffer : List Nat) : List Nat :=
  if revealed then buffer else List.replicate buffer.length PASSWORD_BULLET

/-- Number of Unicode code points in a UTF-16 code-unit sequence (each
low surrogate of a pair is a continuation, not a new code point); used to
state claim C7's "one bullet per buffered code point" reading. -/
def codePointCount (units : List Nat) : Nat :=
  (units.filter (fun c => !(0xDC00 ≤ c && c ≤ 0xDFFF))).length

/-! The media pause/resume coordinator (`_pauseAllMedia`, `_pausePlayer`,
`_resumeAllMedia`, `_resumePlayer`). -/

/-- Observable calls issued on the MPRIS session bus for one endpoint:
the `PlaybackStatus` property query, the `Pause` method call and the
`Play` method call. -/
inductive MediaCall where
  | getStatus (name : String)
  | pause (name : String)
  | play (name : String)
deriving DecidableEq, Repr

/-- Environment of one lock cycle's bus interactions: what the
`PlaybackStatus` query observes for each bus name (`none` models the
query call throwing), and whether the `Pause` call succeeds. -/
structure MediaEnv where
  status : String → Option String
  pauseOk : String → Bool

/-- `_pausePlayer(playerName)`: query `PlaybackStatus`; if the query
throws, the error is caught and nothing more happens. If the status is
`"Playing"`, issue `Pause`; only when that call succeeds is the name
pushed onto `_pausedPlayers`. Returns the names recorded and the bus
calls issued. -/
def _pausePlayer (env : MediaEnv) (name : String) : List String × List MediaCall :=
  match env.status name with
  | none => ([], [MediaCall.getStatus name])
  | some st =>
    if st = "Playing" then
      if env.pauseOk name then ([name], [MediaCall.getStatus name, MediaCall.pause name])
      else ([], [MediaCall.getStatus name, MediaCall.pause name])
    else ([], [MediaCall.getStatus name])

/-- The per-player loop of `_pauseAllMedia`, over an already-filtered
player list. -/
def pausePlayersLoop (env : MediaEnv) : List String → List String × List MediaCall
  | [] => ([], [])
  | n :: rest =>
    let r := _pausePlayer env n
    let rs := pausePlayersLoop env rest
    (r.1 ++ rs.1, r.2 ++ rs.2)

/-- `_pauseAllMedia()`: list bus names, keep those starting with
`MPRIS_PREFIX`, and run `_pausePlayer` on each in order. Returns the
final `_pausedPlayers` and the bus calls issued. -/
def _pauseAllMedia (env : MediaEnv) (names : List String) : List String × List MediaCall :=
  pausePlayersLoop env (names.filter (fun n => n.startsWith "org.mpris.MediaPlayer2."))

/-- `_resumeAllMedia()`: issue `Play` to each recorded player (failures
are caught per player and skipped), then clear `_pausedPlayers`. Returns
the cleared set and the bus calls issued. -/
def _resumeAllMedia (pausedPlayers : List String) : List String × List MediaCall :=
  ([], pausedPlayers.map MediaCall.play)

/-! The cursor renderer (`_xbmBit`, `_renderXbmCursorRgba`). -/

/-- Shape of `LOCK_CURSOR_XBM`: two same-sized monochrome planes stored
LSB-first per byte. -/
structure Xbm where
  width : Nat
  height : Nat
  hotX : Nat
  hotY : Nat
  bits : List Nat
  maskBits : List Nat

/-- `_xbmBit(data, bytesPerRow, x, y)`: LSB-first bit extraction; an
out-of-range byte index reads as 0 (JS `undefined >> n` is 0). -/
def _xbmBit (data : List Nat) (bytesPerRow x y : Nat) : Nat :=
  ((data.getD (y * bytesPerRow + x / 8) 0) >>> (x % 8)) &&& 1

/-- `_renderXbmCursorRgba(xbm, targetWidth, targetHeight, colors)`,
functionally: the imperative loop writes, for every destination pixel
whose nearest-neighbor source mask bit is set, the four color bytes
(foreground when the source selector bit is set, background otherwise);
every other byte of the `Uint8Array` stays 0. -/
def _renderXbmCursorRgba (xbm : Xbm) (targetWidth targetHeight : Nat)
    (fg bg : List Nat) : List Nat :=
  let srcBytesPerRow := (xbm.width + 7) / 8
  (List.range (targetHeight * targetWidth * 4)).map (fun i =>
    let y := i / (targetWidth * 4)
    let x := (i / 4) % targetWidth
    let ch := i % 4
    let srcY := min (xbm.height - 1) ((y * xbm.height) / targetHeight)
    let srcX := min (xbm.width - 1) ((x * xbm.width) / targetWidth)
    if _xbmBit xbm.maskBits srcBytesPerRow srcX srcY = 0 then 0
    else
      (if _xbmBit xbm.bits srcBytesPerRow srcX srcY = 1 then fg else bg).getD ch 0)

/-- The embedded 28x40 `LOCK_CURSOR_XBM` cursor bitmaps from the source. -/
def LOCK_CURSOR_XBM : Xbm :=
  { width := 28
    height := 40
    hotX := 14
    hotY := 21
    bits := [
      0xff, 0xff, 0xff, 0xff, 0xff, 0x01, 0xf8, 0xff, 0x7f, 0x00, 0xe0, 0xff,
      0x3f, 0x00, 0xc0, 0xff, 0x1f, 0x00, 0x80, 0xff, 0x0f, 0xfc, 0x03, 0xff,
      0x0f, 0xfe, 0x07, 0xff, 0x0f, 0xff, 0x0f, 0xff, 0x07, 0xff, 0x0f, 0xfe,
      0x87, 0xff, 0x1f, 0xfe, 0x87, 0xff, 0x1f, 0xfe, 0x87, 0xff, 0x1f, 0xfe,
      0x87, 0xff, 0x1f, 0xfe, 0x87, 0xff, 0x1f, 0xfe, 0x87, 0xff, 0x1f, 0xfe,
      0x87, 0xff, 0x1f, 0xfe, 0x87, 0xff, 0x1f, 0xfe, 0x87, 0xff, 0x1f, 0xfe,
      0x87, 0xff, 0x1f, 0xfe, 0x01, 0x00, 0x00, 0xf8, 0x01, 0x00, 0x00, 0xf8,
      0x01, 0x00, 0x00, 0xf8, 0x01, 0x00, 0x00, 0xf8, 0x01, 0xf0, 0x00, 0xf8,
      0x01, 0xf8, 0x01, 0xf8, 0x01, 0xf8, 0x01, 0xf8, 0x01, 0xf8, 0x01, 0xf8,
      0x01, 0xf8, 0x01, 0xf8, 0x01, 0xf0, 0x00, 0xf8, 0x01, 0x60, 0x00, 0xf8,
      0x01, 0x60, 0x00, 0xf8, 0x01, 0x60, 0x00, 0xf8, 0x01, 0x60, 0x00, 0xf8,
      0x01, 0x60, 0x00, 0xf8, 0x01, 0x60, 0x00, 0xf8, 0x01, 0x00, 0x00, 0xf8,
      0x01, 0x00, 0x00, 0xf8, 0x01, 0x00, 0x00, 0xf8, 0x01, 0x00, 0x00, 0xf8,
      0xff, 0xff, 0xff, 0xff]
    maskBits := [
      0x00, 0xfe, 0x07, 0x00, 0x80, 0xff, 0x1f, 0x00, 0xc0, 0xff, 0x3f, 0x00,
      0xe0, 0xff, 0x7f, 0x00, 0xf0, 0xff, 0xff, 0x00, 0xf8, 0xff, 0xff, 0x01,
      0xf8, 0x03, 0xfc, 0x01, 0xf8, 0x01, 0xf8, 0x01, 0xfc, 0x01, 0xf8, 0x03,
      0xfc, 0x00, 0xf0, 0x03, 0xfc, 0x00, 0xf0, 0x03, 0xfc, 0x00, 0xf0, 0x03,
      0xfc, 0x00, 0xf0, 0x03, 0xfc, 0x00, 0xf0, 0x03, 0xfc, 0x00, 0xf0, 0x03,
      0xfc, 0x00, 0xf0, 0x03, 0xfc, 0x00, 0xf0, 0x03, 0xfc, 0x00, 0xf0, 0x03,
      0xff, 0xff, 0xff, 0x0f, 0xff, 0xff, 0xff, 0x0f, 0xff, 0xff, 0xff, 0x0f,
      0xff, 0xff, 0xff, 0x0f, 0xff, 0xff, 0xff, 0x0f, 0xff, 0xff, 0xff, 0x0f,
      0xff, 0xff, 0xff, 0x0f, 0xff, 0xff, 0xff, 0x0f, 0xff, 0xff, 0xff, 0x0f,
      0xff, 0xff, 0xff, 0x0f, 0xff, 0xff, 0xff, 0x0f, 0xff, 0xff, 0xff, 0x0f,
      0xff, 0xff, 0xff, 0x0f, 0xff, 0xff, 0xff, 0x0f, 0xff, 0xff, 0xff, 0x0f,
      0xff, 0xff, 0xff, 0x0f, 0xff, 0xff, 0xff, 0x0f, 0xff, 0xff, 0xff, 0x0f,
      0xff, 0xff, 0xff, 0x0f, 0xff, 0xff, 0xff, 0x0f, 0xff, 0xff, 0xff, 0x0f,
      0xff, 0xff, 0xff, 0x0f] }

/-! The screenshot overlay (`StealthLockOverlay`). -/

/-- One entry of `this._screenshots`, as pushed by `_captureMonitor`
(the widget reference is not needed by the claims). -/
structure Screenshot where
  file : String
  monitor : Nat
deriving DecidableEq, Repr

structure OverlayState where
  screenshots : List Screenshot
deriving DecidableEq, Repr

/-- `_captureMonitor(index, monitor)` after `_screenshotAreaToFile`
resolves: on failure return with nothing recorded; on success push the
screenshot record. -/
def _captureMonitor (s : OverlayState) (index : Nat) (filenameUsed : String)
    (success : Bool) : OverlayState :=
  if success then
    { s with screenshots := s.screenshots ++ [{ file := filenameUsed, monitor := index }] }
  else s

/-- `captureScreens()`'s per-monitor loop over capture outcomes
`(index, filenameUsed, success)`. -/
def captureScreens (s : OverlayState) : List (Nat × String × Bool) → OverlayState
  | [] => s
  | c :: rest => captureScreens (_captureMonitor s c.1 c.2.1 c.2.2) rest

/-- `StealthLockOverlay.destroy()`: destroy each screenshot widget,
attempt `GLib.unlink` on each recorded file (errors swallowed), then set
`this._screenshots = []`. Returns the new state and the files for which
an unlink was attempted. -/
def overlayDestroy (s : OverlayState) : OverlayState × List String :=
  ({ screenshots := [] }, s.screenshots.map Screenshot.file)

/-- Sample bus environment in which every endpoint is already paused and
every `Pause` call would succeed; used to instantiate media theorems. -/
def envAllPaused : MediaEnv :=
  { status := fun _ => some "Paused", pauseOk := fun _ => true }

/-! ## Theorems settling the claims -/

/-- Claim C1, counterexample: the engine has no pending-verification
guard. From a locked state with an empty buffer, typing `a`, pressing
Enter (first verification starts and is pending), typing `b`, and
pressing Enter again leaves two verification requests pending at once:
the second Enter did start a new verification. -/
theorem C1_counterexample :
    (processEvents (lockedState false)
      [Event.key 0x61 0x61 false false false 0,
       Event.key KEY_Return 0xd false false false 0]).pendingCandidates.length = 1 ∧
    (processEvents (lockedState false)
      [Event.key 0x61 0x61 false false false 0,
       Event.key KEY_Return 0xd false false false 0,
       Event.key 0x62 0x62 false false false 0,
       Event.key KEY_Return 0xd false false false 0]).pendingCandidates.length = 2 := by
  decide

/-- Claim C1, amended: a second Enter while a verification is pending is
a no-op only because the buffer was cleared when that verification
started — an Enter press (or Numpad Enter) with an empty password buffer
changes nothing and starts no new verification. If characters are
accepted in between, a second Enter does start another verification. -/
theorem C1_enter_empty_buffer_noop (s : EngineState) (keyval keychar0 : Nat)
    (ctrl alt shift : Bool) (time : Nat)
    (hk : keyval = KEY_Return ∨ keyval = KEY_KP_Enter)
    (hb : s.passwordBuffer = []) :
    step s (Event.key keyval keychar0 ctrl alt shift time) = s := by
  rcases hk with h | h <;> subst h <;>
  · simp only [step, _onKeyPress]
    by_cases hl : s.locked = false
    · simp [hl]
    · simp [hl, _attemptUnlock, hb, KEY_Return, KEY_KP_Enter, KEY_l, KEY_L]

/-- Witness for the amended claim C1 at a concrete locked state. -/
theorem C1_enter_empty_buffer_noop_witness :
    step (lockedState false) (Event.key KEY_Return 0xd false false false 0)
      = lockedState false :=
  C1_enter_empty_buffer_noop (lockedState false) KEY_Return 0xd false false false 0
    (Or.inl rfl) rfl

/-- Claim C2: an Enter press with a non-empty buffer snapshots the buffer
as the pending candidate and clears the buffer synchronously, before the
verification promise can resolve; and the failure continuation never
touches the buffer, so a rejected password is never restored. -/
theorem C2_buffer_cleared_before_resolve (s : EngineState) (keyval keychar0 : Nat)
    (ctrl alt shift : Bool) (time : Nat)
    (hl : s.locked = true)
    (hk : keyval = KEY_Return ∨ keyval = KEY_KP_Enter)
    (hb : s.passwordBuffer ≠ []) :
    ((step s (Event.key keyval keychar0 ctrl alt shift time)).passwordBuffer = [] ∧
     (step s (Event.key keyval keychar0 ctrl alt shift time)).pendingCandidates
       = s.pendingCandidates ++ [s.passwordBuffer]) ∧
    (∀ s2 : EngineState,
      (step s2 (Event.verifyResolve false)).passwordBuffer = s2.passwordBuffer) := by
  constructor
  · rcases hk with h | h <;> subst h <;>
    · simp only [step, _onKeyPress, hl]
      simp [_attemptUnlock, hb, KEY_Return, KEY_KP_Enter, KEY_l, KEY_L]
  · intro s2
    simp [step, _attemptUnlockResolve]

/-- Witness for claim C2 at a concrete locked state holding `a`. -/
theorem C2_buffer_cleared_before_resolve_witness :
    (step { lockedState false with passwordBuffer := [0x61] }
       (Event.key KEY_Return 0xd false false false 0)).passwordBuffer = [] ∧
    (step { lockedState false with passwordBuffer := [0x61] }
       (Event.key KEY_Return 0xd false false false 0)).pendingCandidates = [[0x61]] :=
  (C2_buffer_cleared_before_resolve _ KEY_Return 0xd false false false 0
    rfl (Or.inl rfl) (by decide)).1

/-- Claim C3: the argv used to spawn the verification helper is the same
for every candidate (it neither contains nor depends on the candidate),
no environment variable is set to carry it, and the candidate reaches the
helper only as `candidate ++ newline` on its standard input. -/
theorem C3_candidate_only_on_stdin (path : String) (debugMode : Bool)
    (p q : List Nat) :
    (_verifyPassword path debugMode p).argv = (_verifyPassword path debugMode q).argv ∧
    (_verifyPassword path debugMode p).envExtra = [] ∧
    (_verifyPassword path debugMode p).stdinUnits = p ++ [0x0a] :=
  ⟨rfl, rfl, rfl⟩

/-- Claim C7, counterexample: the source masks one bullet per UTF-16 code
unit, not per code point. One accepted keystroke decoding to U+10000
(keysym 0x01010000) puts a single code point — a surrogate pair of two
code units — in the buffer, and the non-revealed display is two bullets,
not the one-per-code-point the claim states. -/
theorem C7_counterexample :
    (processEvents (lockedState false)
       [Event.key 0x01010000 0 false false false 0]).passwordBuffer
      = [0xD800, 0xDC00] ∧
    codePointCount [0xD800, 0xDC00] = 1 ∧
    _updatePasswordPrompt false [0xD800, 0xDC00]
      ≠ List.replicate (codePointCount [0xD800, 0xDC00]) PASSWORD_BULLET := by
  decide

/-- Claim C7, amended: when reveal mode is off the displayed text is
exactly one bullet per buffered UTF-16 code unit (hence never the literal
buffer, as long as the buffer contains any non-bullet unit); the literal
buffer text is shown only while reveal mode is on. -/
theorem C7_masked_display (revealed : Bool) (buffer : List Nat) :
    (revealed = true → _updatePasswordPrompt revealed buffer = buffer) ∧
    (revealed = false →
      _updatePasswordPrompt revealed buffer
        = List.replicate buffer.length PASSWORD_BULLET) ∧
    (revealed = false → (∃ c ∈ buffer, c ≠ PASSWORD_BULLET) →
      _updatePasswordPrompt revealed buffer ≠ buffer) := by
  refine ⟨fun h => by simp [_updatePasswordPrompt, h],
          fun h => by simp [_updatePasswordPrompt, h], ?_⟩
  rintro h ⟨c, hc, hne⟩ heq
  rw [_updatePasswordPrompt, h] at heq
  simp only [Bool.false_eq_true, if_false] at heq
  exact hne (List.eq_of_mem_replicate (heq ▸ hc))

/-- Witness for the amended claim C7: a two-character buffer displays as
two bullets and not as itself. -/
theorem C7_masked_display_witness :
    _updatePasswordPrompt false [0x61, 0x62]
      = List.replicate 2 PASSWORD_BULLET ∧
    _updatePasswordPrompt false [0x61, 0x62] ≠ [0x61, 0x62] :=
  ⟨(C7_masked_display false [0x61, 0x62]).2.1 rfl,
   (C7_masked_display false [0x61, 0x62]).2.2 rfl ⟨0x61, by decide, by decide⟩⟩

/-- Claim C10: destroying the overlay attempts an unlink for every
recorded screenshot file and empties the recorded list; and starting from
a fresh overlay, the files recorded by the capture loop — and therefore
unlinked on destroy — are exactly those of the successful captures. -/
theorem C10_screenshots_deleted_on_destroy :
    (∀ s : OverlayState,
      (overlayDestroy s).1.screenshots = [] ∧
      (overlayDestroy s).2 = s.screenshots.map Screenshot.file) ∧
    (∀ caps : List (Nat × String × Bool),
      (overlayDestroy (captureScreens { screenshots := [] } caps)).2
        = (caps.filter (fun c => c.2.2)).map (fun c => c.2.1)) := by
  constructor
  · intro s; exact ⟨rfl, rfl⟩
  · intro caps
    have key : ∀ (caps : List (Nat × String × Bool)) (s : OverlayState),
        (captureScreens s caps).screenshots.map Screenshot.file
          = s.screenshots.map Screenshot.file
            ++ (caps.filter (fun c => c.2.2)).map (fun c => c.2.1) := by
      intro caps
      induction caps with
      | nil => intro s; simp [captureScreens]
      | cons c rest ih =>
        intro s
        by_cases h : c.2.2 = true <;>
          simp [captureScreens, _captureMonitor, h, ih, List.filter_cons]
    simpa [overlayDestroy] using key caps { screenshots := [] }

/-- Helper: the debug-abort handler never puts anything back into an
already-empty password buffer. -/
theorem handleDebugAbort_buffer_nil (s : EngineState) (t : Nat)
    (h : s.passwordBuffer = []) :
    (_handleDebugAbortSequence s t).passwordBuffer = [] := by
  unfold _handleDebugAbortSequence _unlock
  split_ifs <;> simp_all
  split <;> rfl

/-- Claim C5: whenever the platform Unicode chain yields nothing or a
control character, the decoder equals the spec's fallback table exactly;
and a key event decoding to no character never appends anything — the
buffer afterwards is a prefix of the buffer before. -/
theorem C5_fallback_decode :
    (∀ keyval keychar0 : Nat, keychar0 = 0 ∨ keychar0 < 0x20 →
      decodeKeychar keyval keychar0 = specFallbackChar keyval) ∧
    (∀ (s : EngineState) (keyval keychar0 : Nat) (ctrl alt shift : Bool) (time : Nat),
      decodeKeychar keyval keychar0 = 0 →
      (step s (Event.key keyval keychar0 ctrl alt shift time)).passwordBuffer
        <+: s.passwordBuffer) := by
  constructor
  · intro keyval keychar0 h
    unfold decodeKeychar specFallbackChar
    rw [if_pos h]
  · intro s keyval keychar0 ctrl alt shift time hdec
    by_cases hl : s.locked = false
    · simp [step, _onKeyPress, hl]
    · simp only [step, _onKeyPress, if_neg hl]
      split_ifs with h1 h2 h3 h4 h5 h6 h7
      · simp [_unlock]
      · unfold _attemptUnlock
        split_ifs with hb
        · exact List.prefix_refl _
        · exact List.nil_prefix
      · exact List.prefix_refl _
      · exact List.dropLast_prefix _
      · rw [handleDebugAbort_buffer_nil _ _ rfl]
        exact List.nil_prefix
      · exact List.prefix_refl _
      · exact absurd hdec h7
      · exact List.prefix_refl _

/-- Witness for claim C5: the keypad-plus key with an empty platform
result decodes through the fallback table to `+`. -/
theorem C5_fallback_decode_witness :
    decodeKeychar KEY_KP_Add 0 = specFallbackChar KEY_KP_Add ∧
    specFallbackChar KEY_KP_Add = 0x2b :=
  ⟨C5_fallback_decode.1 KEY_KP_Add 0 (Or.inl rfl), by decide⟩

/-- Helper: an accepted character keystroke only appends its decoded
character's UTF-16 code units to the buffer. -/
theorem step_accepted_char (s : EngineState) (e : Event)
    (hl : s.locked = true) (ha : acceptsChar s.hasRevealIcon e) :
    step s e
      = { s with passwordBuffer := s.passwordBuffer ++ jsFromCodePoint (eventKeychar e) } := by
  cases e with
  | verifyResolve b => exact absurd ha (by simp [acceptsChar])
  | key keyval keychar0 ctrl alt shift time =>
    obtain ⟨h1, h2, h3, h4, h5, h6, h7⟩ := ha
    simp [step, _onKeyPress, hl, h1, h2, h3, h4, h5, h6, h7, eventKeychar]

/-- Helper: Backspace while locked drops the last UTF-16 code unit. -/
theorem step_backspace (s : EngineState) (hl : s.locked = true) :
    step s backspaceEvent = { s with passwordBuffer := s.passwordBuffer.dropLast } := by
  simp [step, backspaceEvent, _onKeyPress, hl, KEY_BackSpace, KEY_Return, KEY_KP_Enter,
    KEY_l, KEY_L, KEY_r, KEY_R]

/-- Helper: a run of accepted character keystrokes appends the
concatenation of the decoded characters' code units. -/
theorem processEvents_chars (es : List Event) :
    ∀ s : EngineState, s.locked = true →
      (∀ e ∈ es, acceptsChar s.hasRevealIcon e) →
      processEvents s es
        = { s with passwordBuffer :=
              s.passwordBuffer ++ es.flatMap (fun e => jsFromCodePoint (eventKeychar e)) } := by
  induction es with
  | nil => intro s _ _; simp [processEvents]
  | cons e rest ih =>
    intro s hl ha
    have hstep := step_accepted_char s e hl (ha e (by simp))
    simp only [processEvents, hstep]
    rw [ih { s with passwordBuffer := s.passwordBuffer ++ jsFromCodePoint (eventKeychar e) }
        (by simpa using hl) (fun x hx => ha x (List.mem_cons_of_mem _ hx))]
    simp

/-- Helper: a run of Backspaces of the same length as an appended suffix
restores the original buffer. -/
theorem processEvents_backspaces (l : List Nat) :
    ∀ (s : EngineState) (b : List Nat), s.locked = true →
      processEvents { s with passwordBuffer := b ++ l }
          (List.replicate l.length backspaceEvent)
        = { s with passwordBuffer := b } := by
  induction l using List.reverseRecOn with
  | nil => intro s b _; simp [processEvents]
  | append_singleton l a ih =>
    intro s b hl
    have hstep := step_backspace { s with passwordBuffer := b ++ (l ++ [a]) } (by simpa using hl)
    simp only [List.length_append, List.length_singleton, List.replicate_succ,
      processEvents, hstep]
    have hdrop : (b ++ (l ++ [a])).dropLast = b ++ l := by
      rw [← List.append_assoc, List.dropLast_concat]
    rw [hdrop]
    exact ih s b hl

/-- Claim C6, counterexample: Backspace removes the last UTF-16 code
unit, not the last code point. One accepted keystroke decoding to
U+10000 (keysym 0x01010000) appends a surrogate pair; one Backspace then
leaves a lone high surrogate, so one keystroke followed by one Backspace
does not empty the buffer. -/
theorem C6_counterexample :
    acceptsChar false (Event.key 0x01010000 0 false false false 0) ∧
    (processEvents (lockedState false)
       [Event.key 0x01010000 0 false false false 0, backspaceEvent]).passwordBuffer
      = [0xD800] := by
  exact ⟨by decide, by decide⟩

/-- Claim C6, amended: for accepted character keystrokes whose decoded
code points all lie in the Basic Multilingual Plane (below 0x10000, one
UTF-16 code unit each), n keystrokes from an empty buffer followed by n
Backspaces leave the buffer empty; a supplementary-plane character
occupies two code units and needs two Backspaces. -/
theorem C6_roundtrip (s : EngineState) (es : List Event)
    (hl : s.locked = true) (hb : s.passwordBuffer = [])
    (ha : ∀ e ∈ es, acceptsChar s.hasRevealIcon e)
    (hbmp : ∀ e ∈ es, eventKeychar e < 0x10000) :
    (processEvents s (es ++ List.replicate es.length backspaceEvent)).passwordBuffer = [] := by
  have happ : ∀ (l1 l2 : List Event) (st : EngineState),
      processEvents st (l1 ++ l2) = processEvents (processEvents st l1) l2 := by
    intro l1
    induction l1 with
    | nil => intro l2 st; rfl
    | cons e rest ih => intro l2 st; simp [processEvents, ih]
  have hflat : es.flatMap (fun e => jsFromCodePoint (eventKeychar e))
      = es.map eventKeychar := by
    clear ha
    induction es with
    | nil => rfl
    | cons e rest ih =>
      have h1 : jsFromCodePoint (eventKeychar e) = [eventKeychar e] := by
        unfold jsFromCodePoint
        rw [if_pos (hbmp e (by simp))]
      simp [List.flatMap_cons, h1, ih (fun x hx => hbmp x (List.mem_cons_of_mem _ hx))]
  have hlen : (es.map eventKeychar).length = es.length := List.length_map _ _
  rw [happ, processEvents_chars es s hl ha, hflat, hb, ← hlen]
  rw [processEvents_backspaces (es.map eventKeychar) s [] hl]

/-- Witness for the amended claim C6 at one BMP keystroke. -/
theorem C6_roundtrip_witness :
    (processEvents (lockedState false)
       ([Event.key 0x61 0x61 false false false 0]
         ++ List.replicate 1 backspaceEvent)).passwordBuffer = [] :=
  C6_roundtrip (lockedState false) [Event.key 0x61 0x61 false false false 0]
    rfl rfl (by decide) (by decide)

/-- Helper: key events are ignored while not locked. -/
theorem step_key_unlocked (s : EngineState) (keyval keychar0 : Nat)
    (ctrl alt shift : Bool) (time : Nat) (hu : s.locked = false) :
    step s (Event.key keyval keychar0 ctrl alt shift time) = s := by
  simp [step, _onKeyPress, hu]

/-- Helper: with debug mode off, an Escape press only clears the buffer
(while locked) and is otherwise a no-op. -/
theorem step_escape_debug_off (s : EngineState) (e : Event)
    (hd : s.debugMode = false) (he : isEscapePress e) :
    step s e = if s.locked = true then { s with passwordBuffer := [] } else s := by
  cases e with
  | verifyResolve b => exact absurd he (by simp [isEscapePress])
  | key keyval keychar0 ctrl alt shift time =>
    have hk : keyval = KEY_Escape := he
    subst hk
    by_cases hl : s.locked = true
    · simp [step, _onKeyPress, hl, KEY_Escape, KEY_Return, KEY_KP_Enter, KEY_BackSpace,
        KEY_l, KEY_L, KEY_r, KEY_R, _handleDebugAbortSequence, hd]
    · have hl' : s.locked = false := by revert hl; cases s.locked <;> simp
      simp [step, _onKeyPress, hl', hl]

/-- Helper: any run of Escape presses with debug mode off keeps the lock
state, makes no verification call, and at most clears the buffer. -/
theorem escapes_debug_off (es : List Event) :
    ∀ s : EngineState, s.debugMode = false → (∀ e ∈ es, isEscapePress e) →
      (processEvents s es).locked = s.locked ∧
      (processEvents s es).debugMode = false ∧
      (processEvents s es).verifyCalls = s.verifyCalls ∧
      ((processEvents s es).passwordBuffer = s.passwordBuffer ∨
       (processEvents s es).passwordBuffer = []) := by
  induction es with
  | nil => intro s hd _; exact ⟨rfl, hd, rfl, Or.inl rfl⟩
  | cons e rest ih =>
    intro s hd he
    have hstep := step_escape_debug_off s e hd (he e (by simp))
    simp only [processEvents, hstep]
    by_cases hl : s.locked = true
    · rw [if_pos hl]
      obtain ⟨h1, h2, h3, h4⟩ := ih { s with passwordBuffer := [] } (by simpa using hd)
        (fun x hx => he x (List.mem_cons_of_mem _ hx))
      refine ⟨by simpa using h1, h2, by simpa using h3, ?_⟩
      rcases h4 with h | h
      · right; simpa using h
      · right; exact h
    · rw [if_neg hl]
      exact ih s hd (fun x hx => he x (List.mem_cons_of_mem _ hx))

/-- Helper: an Escape press while locked in debug mode either unlocks at
once, or increments the rolling counter (resetting it first when the
press falls outside the 1.2 s window), stamps the press time, and can
stay locked only while the counter is at most 4; verification state is
untouched either way. -/
theorem step_escape_debug_on (s : EngineState) (t : Nat)
    (hl : s.locked = true) (hd : s.debugMode = true) :
    (step s (escEvent t)).verifyCalls = s.verifyCalls ∧
    (step s (escEvent t)).debugMode = true ∧
    ((step s (escEvent t)).locked = false ∨
      ((step s (escEvent t)).locked = true ∧
       (step s (escEvent t)).debugAbortSequenceLastTime = t ∧
       (step s (escEvent t)).debugAbortSequenceCount
         = (if s.debugAbortSequenceLastTime + 1200 < t then 0
            else s.debugAbortSequenceCount) + 1 ∧
       (step s (escEvent t)).debugAbortSequenceCount ≤ 4)) := by
  have hstep : step s (escEvent t)
      = _handleDebugAbortSequence { s with passwordBuffer := [] } t := by
    simp [step, escEvent, _onKeyPress, hl, KEY_Escape, KEY_Return, KEY_KP_Enter,
      KEY_BackSpace, KEY_l, KEY_L, KEY_r, KEY_R]
  rw [hstep]
  unfold _handleDebugAbortSequence
  dsimp only
  rw [if_neg (show ¬(s.debugMode = false ∨ s.locked = false) by simp [hd, hl])]
  by_cases h5 : 5 ≤ (if s.debugAbortSequenceLastTime + 1200 < t then 0
      else s.debugAbortSequenceCount) + 1
  · rw [if_pos h5]
    unfold _unlock
    rw [if_neg (by simp)]
    exact ⟨rfl, hd, Or.inl rfl⟩
  · rw [if_neg h5]
    exact ⟨rfl, hd, Or.inr ⟨hl, rfl, rfl, by dsimp only; omega⟩⟩

/-- Helper: an Escape press on an unlocked state is a no-op. -/
theorem step_escape_unlocked (s : EngineState) (t : Nat) (hu : s.locked = false) :
    step s (escEvent t) = s :=
  step_key_unlocked s KEY_Escape 0x1b false false false t hu

/-- Claim C4: with debug mode enabled and the engine locked, five Escape
presses whose timestamps all fall in a 1.2-second rolling window force
the state to unlocked without any verification call; with debug mode
disabled, any run of Escape presses keeps the lock state (never unlocks),
makes no verification call, and at most clears the password buffer. -/
theorem C4_debug_abort_unlock :
    (∀ (s : EngineState) (t1 t2 t3 t4 t5 : Nat),
      s.locked = true → s.debugMode = true →
      t1 ≤ t2 → t2 ≤ t3 → t3 ≤ t4 → t4 ≤ t5 → t5 ≤ t1 + 1200 →
      (processEvents s [escEvent t1, escEvent t2, escEvent t3, escEvent t4,
          escEvent t5]).locked = false ∧
      (processEvents s [escEvent t1, escEvent t2, escEvent t3, escEvent t4,
          escEvent t5]).verifyCalls = s.verifyCalls) ∧
    (∀ (s : EngineState) (es : List Event),
      s.debugMode = false → (∀ e ∈ es, isEscapePress e) →
      (processEvents s es).locked = s.locked ∧
      (processEvents s es).verifyCalls = s.verifyCalls ∧
      ((processEvents s es).passwordBuffer = s.passwordBuffer ∨
       (processEvents s es).passwordBuffer = [])) := by
  constructor
  · intro s t1 t2 t3 t4 t5 hl hd h12 h23 h34 h45 hwin
    simp only [processEvents]
    obtain ⟨hv1, hd1, hc1⟩ := step_escape_debug_on s t1 hl hd
    rcases hc1 with hu1 | ⟨hl1, ht1, hcnt1, hle1⟩
    · rw [step_escape_unlocked _ t2 hu1, step_escape_unlocked _ t3 hu1,
        step_escape_unlocked _ t4 hu1, step_escape_unlocked _ t5 hu1]
      exact ⟨hu1, hv1⟩
    · obtain ⟨hv2, hd2, hc2⟩ := step_escape_debug_on _ t2 hl1 hd1
      rcases hc2 with hu2 | ⟨hl2, ht2, hcnt2, hle2⟩
      · rw [step_escape_unlocked _ t3 hu2, step_escape_unlocked _ t4 hu2,
          step_escape_unlocked _ t5 hu2]
        rw [hv2, hv1]
        exact ⟨hu2, rfl⟩
      · rw [ht1, if_neg (show ¬(t1 + 1200 < t2) by omega)] at hcnt2
        obtain ⟨hv3, hd3, hc3⟩ := step_escape_debug_on _ t3 hl2 hd2
        rcases hc3 with hu3 | ⟨hl3, ht3, hcnt3, hle3⟩
        · rw [step_escape_unlocked _ t4 hu3, step_escape_unlocked _ t5 hu3]
          rw [hv3, hv2, hv1]
          exact ⟨hu3, rfl⟩
        · rw [ht2, if_neg (show ¬(t2 + 1200 < t3) by omega)] at hcnt3
          obtain ⟨hv4, hd4, hc4⟩ := step_escape_debug_on _ t4 hl3 hd3
          rcases hc4 with hu4 | ⟨hl4, ht4, hcnt4, hle4⟩
          · rw [step_escape_unlocked _ t5 hu4]
            rw [hv4, hv3, hv2, hv1]
            exact ⟨hu4, rfl⟩
          · rw [ht3, if_neg (show ¬(t3 + 1200 < t4) by omega)] at hcnt4
            obtain ⟨hv5, hd5, hc5⟩ := step_escape_debug_on _ t5 hl4 hd4
            rcases hc5 with hu5 | ⟨hl5, ht5, hcnt5, hle5⟩
            · rw [hv5, hv4, hv3, hv2, hv1]
              exact ⟨hu5, rfl⟩
            · rw [ht4, if_neg (show ¬(t4 + 1200 < t5) by omega)] at hcnt5
              exact absurd hle5 (by omega)
  · intro s es hd he
    obtain ⟨h1, _, h3, h4⟩ := escapes_debug_off es s hd he
    exact ⟨h1, h3, h4⟩

/-- Witness for claim C4: from a concrete locked debug-mode state, five
immediate Escape presses unlock with no verification call; and with
debug mode off a single Escape press leaves the engine locked. -/
theorem C4_debug_abort_unlock_witness :
    ((processEvents (lockedState true)
        [escEvent 0, escEvent 0, escEvent 0, escEvent 0, escEvent 0]).locked = false ∧
     (processEvents (lockedState true)
        [escEvent 0, escEvent 0, escEvent 0, escEvent 0, escEvent 0]).verifyCalls
       = (lockedState true).verifyCalls) ∧
    (processEvents (lockedState false) [escEvent 7]).locked = (lockedState false).locked :=
  ⟨C4_debug_abort_unlock.1 (lockedState true) 0 0 0 0 0 rfl rfl
      (Nat.le_refl 0) (Nat.le_refl 0) (Nat.le_refl 0) (Nat.le_refl 0) (by omega),
   (C4_debug_abort_unlock.2 (lockedState false) [escEvent 7] rfl (by decide)).1⟩

/-- Helper: the bus calls `_pausePlayer` issues — always the status
query, plus a `Pause` call exactly when the observed status is
`"Playing"` (whether or not the `Pause` call then succeeds). -/
theorem pausePlayer_calls (env : MediaEnv) (m : String) :
    (_pausePlayer env m).2 =
      if env.status m = some "Playing" then [MediaCall.getStatus m, MediaCall.pause m]
      else [MediaCall.getStatus m] := by
  unfold _pausePlayer
  rcases h : env.status m with _ | st
  · simp [h]
  · by_cases hp : st = "Playing"
    · subst hp
      by_cases hk : env.pauseOk m <;> simp [h, hk]
    · simp [h, hp]

/-- Helper: `_pausePlayer` records the player iff it observed
`"Playing"` and the `Pause` call succeeded. -/
theorem pausePlayer_recorded (env : MediaEnv) (m : String) :
    (_pausePlayer env m).1 =
      if env.status m = some "Playing" ∧ env.pauseOk m = true then [m] else [] := by
  unfold _pausePlayer
  rcases h : env.status m with _ | st
  · simp [h]
  · by_cases hp : st = "Playing"
    · subst hp
      by_cases hk : env.pauseOk m <;> simp [h, hk]
    · simp [h, hp]

/-- Helper: over the whole player loop, a `Pause` call is issued to `n`
iff `n` is in the list and was observed `"Playing"`. -/
theorem pauseLoop_pause_mem (env : MediaEnv) (l : List String) (n : String) :
    MediaCall.pause n ∈ (pausePlayersLoop env l).2 ↔
      n ∈ l ∧ env.status n = some "Playing" := by
  induction l with
  | nil => simp [pausePlayersLoop]
  | cons m rest ih =>
    simp only [pausePlayersLoop, List.mem_append, ih, pausePlayer_calls, List.mem_cons]
    by_cases hm : env.status m = some "Playing" <;> by_cases hnm : n = m
    · subst hnm; simp [hm]
    · simp [hm, hnm]
    · subst hnm; simp [hm]
    · simp [hm, hnm]

/-- Helper: the loop records exactly the players observed `"Playing"`
whose `Pause` call succeeded. -/
theorem pauseLoop_recorded (env : MediaEnv) (l : List String) :
    (pausePlayersLoop env l).1
      = l.filter (fun n => decide (env.status n = some "Playing") && env.pauseOk n) := by
  induction l with
  | nil => rfl
  | cons m rest ih =>
    simp only [pausePlayersLoop, pausePlayer_recorded, ih, List.filter_cons]
    by_cases h1 : env.status m = some "Playing" <;> by_cases h2 : env.pauseOk m = true <;>
      simp [h1, h2]

/-- Claim C8: in one lock cycle a `Pause` is issued only to MPRIS-named
endpoints observed `"Playing"`; the recorded set is exactly the
successfully paused ones; resume issues `Play` to exactly the recorded
set and clears it; hence an endpoint that was not observed playing —
e.g. already paused before locking — receives no `Play` on unlock. -/
theorem C8_media_symmetric_resume :
    (∀ (env : MediaEnv) (names : List String) (n : String),
      MediaCall.pause n ∈ (_pauseAllMedia env names).2 ↔
        n ∈ names.filter (fun m => m.startsWith "org.mpris.MediaPlayer2.") ∧
        env.status n = some "Playing") ∧
    (∀ (env : MediaEnv) (names : List String),
      (_pauseAllMedia env names).1
        = (names.filter (fun m => m.startsWith "org.mpris.MediaPlayer2.")).filter
            (fun n => decide (env.status n = some "Playing") && env.pauseOk n)) ∧
    (∀ paused : List String,
      (_resumeAllMedia paused).2 = paused.map MediaCall.play ∧
      (_resumeAllMedia paused).1 = []) ∧
    (∀ (env : MediaEnv) (names : List String) (n : String),
      env.status n ≠ some "Playing" →
        MediaCall.play n ∉ (_resumeAllMedia (_pauseAllMedia env names).1).2) := by
  refine ⟨?_, ?_, fun paused => ⟨rfl, rfl⟩, ?_⟩
  · intro env names n
    exact pauseLoop_pause_mem env _ n
  · intro env names
    exact pauseLoop_recorded env _
  · intro env names n hne hmem
    unfold _resumeAllMedia at hmem
    rw [List.mem_map] at hmem
    obtain ⟨x, hx, hxn⟩ := hmem
    have hx' : x = n := by
      have := hxn
      simpa [MediaCall.play.injEq] using this
    subst hx'
    rw [_pauseAllMedia, pauseLoop_recorded, List.mem_filter] at hx
    have : env.status x = some "Playing" := by
      have hb := hx.2
      simp only [Bool.and_eq_true, decide_eq_true_eq] at hb
      exact hb.1
    exact hne this

/-- Witness for claim C8: an endpoint observed already `"Paused"` is not
resumed on unlock. -/
theorem C8_media_symmetric_resume_witness :
    MediaCall.play "org.mpris.MediaPlayer2.spotify" ∉
      (_resumeAllMedia
        (_pauseAllMedia envAllPaused ["org.mpris.MediaPlayer2.spotify"]).1).2 :=
  C8_media_symmetric_resume.2.2.2 envAllPaused ["org.mpris.MediaPlayer2.spotify"]
    "org.mpris.MediaPlayer2.spotify" (by decide)

/-- Helper: indexing a mapped range list evaluates the function. -/
theorem getD_range_map (n i : Nat) (f : Nat → Nat) (h : i < n) :
    ((List.range n).map f).getD i 0 = f i := by
  rw [List.getD_eq_getElem?_getD]
  simp [List.getElem?_map, List.getElem?_range h]

/-- Helper: one rendered byte, by pixel coordinates — transparent-0 where
the nearest source mask bit is clear, the selected color byte where it is
set. -/
theorem render_getD (xbm : Xbm) (w h x y ch : Nat) (fg bg : List Nat)
    (hx : x < w) (hy : y < h) (hch : ch < 4) :
    (_renderXbmCursorRgba xbm w h fg bg).getD ((y * w + x) * 4 + ch) 0 =
      if _xbmBit xbm.maskBits ((xbm.width + 7) / 8)
           (min (xbm.width - 1) ((x * xbm.width) / w))
           (min (xbm.height - 1) ((y * xbm.height) / h)) = 0 then 0
      else (if _xbmBit xbm.bits ((xbm.width + 7) / 8)
                 (min (xbm.width - 1) ((x * xbm.width) / w))
                 (min (xbm.height - 1) ((y * xbm.height) / h)) = 1
            then fg else bg).getD ch 0 := by
  have hA : y * w + x < h * w := by
    have h1 : (y + 1) * w ≤ h * w := Nat.mul_le_mul_right w hy
    have h2 : (y + 1) * w = y * w + w := by ring
    omega
  have hi : (y * w + x) * 4 + ch < h * w * 4 := by omega
  simp only [_renderXbmCursorRgba]
  rw [getD_range_map _ _ _ hi]
  have e1 : ((y * w + x) * 4 + ch) / (w * 4) = y := by
    have hr : (y * w + x) * 4 + ch = (x * 4 + ch) + y * (w * 4) := by ring
    have hlt : x * 4 + ch < w * 4 := by omega
    rw [hr, Nat.add_mul_div_right _ _ (by omega : 0 < w * 4), Nat.div_eq_of_lt hlt,
      Nat.zero_add]
  have e2 : (((y * w + x) * 4 + ch) / 4) % w = x := by
    have hd : ((y * w + x) * 4 + ch) / 4 = y * w + x := by omega
    rw [hd, Nat.add_comm (y * w) x, Nat.add_mul_mod_self_right, Nat.mod_eq_of_lt hx]
  have e3 : ((y * w + x) * 4 + ch) % 4 = ch := by omega
  simp only [e1, e2, e3]

/-- Claim C9: for every target size (up- or downscaling, no out-of-range
access) a destination pixel of the rendered cursor raster has alpha 0 —
is fully transparent — iff the nearest-neighbor source mask bit is 0; and
where the mask bit is 1 the pixel carries the foreground color bytes when
the source selector bit is 1, the background color bytes otherwise. The
foreground/background alphas are assumed nonzero, as they are for both
the renderer's and the caller's default color pairs. -/
theorem C9_cursor_raster (w h x y : Nat) (fg bg : List Nat)
    (hx : x < w) (hy : y < h)
    (hfga : fg.getD 3 0 ≠ 0) (hbga : bg.getD 3 0 ≠ 0) :
    ((_renderXbmCursorRgba LOCK_CURSOR_XBM w h fg bg).getD ((y * w + x) * 4 + 3) 0 = 0 ↔
      _xbmBit LOCK_CURSOR_XBM.maskBits ((LOCK_CURSOR_XBM.width + 7) / 8)
        (min (LOCK_CURSOR_XBM.width - 1) ((x * LOCK_CURSOR_XBM.width) / w))
        (min (LOCK_CURSOR_XBM.height - 1) ((y * LOCK_CURSOR_XBM.height) / h)) = 0) ∧
    (_xbmBit LOCK_CURSOR_XBM.maskBits ((LOCK_CURSOR_XBM.width + 7) / 8)
        (min (LOCK_CURSOR_XBM.width - 1) ((x * LOCK_CURSOR_XBM.width) / w))
        (min (LOCK_CURSOR_XBM.height - 1) ((y * LOCK_CURSOR_XBM.height) / h)) = 1 →
      ∀ ch : Nat, ch < 4 →
        (_renderXbmCursorRgba LOCK_CURSOR_XBM w h fg bg).getD ((y * w + x) * 4 + ch) 0
          = (if _xbmBit LOCK_CURSOR_XBM.bits ((LOCK_CURSOR_XBM.width + 7) / 8)
                 (min (LOCK_CURSOR_XBM.width - 1) ((x * LOCK_CURSOR_XBM.width) / w))
                 (min (LOCK_CURSOR_XBM.height - 1) ((y * LOCK_CURSOR_XBM.height) / h)) = 1
             then fg else bg).getD ch 0) := by
  constructor
  · rw [render_getD LOCK_CURSOR_XBM w h x y 3 fg bg hx hy (by norm_num)]
    by_cases hm : _xbmBit LOCK_CURSOR_XBM.maskBits ((LOCK_CURSOR_XBM.width + 7) / 8)
        (min (LOCK_CURSOR_XBM.width - 1) ((x * LOCK_CURSOR_XBM.width) / w))
        (min (LOCK_CURSOR_XBM.height - 1) ((y * LOCK_CURSOR_XBM.height) / h)) = 0
    · simp [hm]
    · rw [if_neg hm]
      constructor
      · intro halpha
        by_cases hs : _xbmBit LOCK_CURSOR_XBM.bits ((LOCK_CURSOR_XBM.width + 7) / 8)
            (min (LOCK_CURSOR_XBM.width - 1) ((x * LOCK_CURSOR_XBM.width) / w))
            (min (LOCK_CURSOR_XBM.height - 1) ((y * LOCK_CURSOR_XBM.height) / h)) = 1
        · rw [if_pos hs] at halpha; exact absurd halpha hfga
        · rw [if_neg hs] at halpha; exact absurd halpha hbga
      · intro h0; exact absurd h0 hm
  · intro hm ch hch
    rw [render_getD LOCK_CURSOR_XBM w h x y ch fg bg hx hy hch,
      if_neg (by rw [hm]; norm_num)]

/-- Witness for claim C9 at a 2x2 target: destination pixel (0, 0) maps
to source (0, 0), whose mask bit is clear, so its alpha byte is 0. -/
theorem C9_cursor_raster_witness :
    (_renderXbmCursorRgba LOCK_CURSOR_XBM 2 2 [9, 9, 9, 9] [1, 1, 1, 1]).getD 3 0 = 0 :=
  (C9_cursor_raster 2 2 0 0 [9, 9, 9, 9] [1, 1, 1, 1] (by norm_num) (by norm_num)
    (by norm_num) (by norm_num)).1.mpr (by decide)

end StealthLock
